import Mathlib

/-!
Verification of the wexin-crawler ingestion-and-scoring pipeline.

Shallow embedding of the core pipeline of the repository:

* `models.py` — `Article.calculate_scores` (scoring engine);
* `metrics_fetcher.py` — `MetricsFetcher._generate_simulated_metrics` and
  `MetricsFetcher.fetch_article_metrics`;
* `sync_manager.py` — the per-entry loop of `SyncManager.sync_account`
  (dedup by URL, insert/update/skip, metrics sub-step, failure counting);
* `content_processor.py` — author resolution in `process_article`, and
  `_count_words`;
* `content_fetcher.py` — `_parse_wechat_html` / `fetch_article_content`.

Python floats are modelled by `ℚ` (all claimed score values were checked to be
exact in IEEE double arithmetic), Python ints by `Int`/`Nat`, absent dictionary
keys by `Option`, and foreign effects (HTTP transport, the `random` module, the
HTML DOM) by explicitly-passed outcome values and abstract interface structures.
-/

namespace WexinCrawler

/-! ## Scoring engine (`models.py`, `Article.calculate_scores`) -/

/-- The six raw engagement counters of an `Article` row.  Each column is
nullable in the schema (`Optional[int]`), hence `Option Int`. -/
structure ArticleCounters where
  read_count : Option Int
  like_count : Option Int
  wow_count : Option Int
  comment_count : Option Int
  share_count : Option Int
  favorite_count : Option Int
deriving DecidableEq, Repr

/-- The four derived score fields of an `Article` row. -/
structure ArticleScores where
  engagement_rate : ℚ
  virality_index : ℚ
  content_value_index : ℚ
  heat_score : ℚ
deriving DecidableEq, Repr

/-- The clamped denominator `read = max(1, self.read_count or 0)` used by
`calculate_scores`.  Python's `x or 0` maps both `None` and `0` to `0`, which
coincides with `Option.getD 0` on these values. -/
def clampedRead (a : ArticleCounters) : ℚ :=
  max 1 ((a.read_count.getD 0 : Int) : ℚ)

/-- Model of `Article.calculate_scores` from `models.py`: recomputes the four scores
from the six counters, treating `None` as `0` and clamping the read count to
at least 1. -/
def calculate_scores (a : ArticleCounters) : ArticleScores :=
  let read : ℚ := clampedRead a
  let likes : ℚ := ((a.like_count.getD 0 : Int) : ℚ)
  let wow : ℚ := ((a.wow_count.getD 0 : Int) : ℚ)
  let comments : ℚ := ((a.comment_count.getD 0 : Int) : ℚ)
  let shares : ℚ := ((a.share_count.getD 0 : Int) : ℚ)
  let favorites : ℚ := ((a.favorite_count.getD 0 : Int) : ℚ)
  { engagement_rate := (likes + wow) / read * 1000
    virality_index := (shares * 2 + wow) / read * 1000
    content_value_index := (favorites * 2 + comments) / read * 1000
    heat_score := (likes * 1 + wow * 2 + comments * 3 + favorites * 4 + shares * 5) / read * 100 }

/-- The concrete counter example used in the specification:
`(read=1000, like=50, wow=20, comment=5, share=15, favorite=10)`. -/
def exampleCounters : ArticleCounters :=
  { read_count := some 1000
    like_count := some 50
    wow_count := some 20
    comment_count := some 5
    share_count := some 15
    favorite_count := some 10 }

/-! ## Metrics fetcher (`metrics_fetcher.py`) -/

/-- The six-counter dictionary returned by `MetricsFetcher.fetch_article_metrics`
and `_generate_simulated_metrics`, together with the `is_simulated` flag. -/
structure MetricsDict where
  read_count : Int
  like_count : Int
  wow_count : Int
  comment_count : Int
  share_count : Int
  favorite_count : Int
  is_simulated : Bool
deriving DecidableEq, Repr

/-- Python's `int(...)` applied to a rational: truncation toward zero. -/
def pyTrunc (x : ℚ) : Int :=
  if 0 ≤ x then ⌊x⌋ else -⌊-x⌋

/-- Abstract model of Python's `random.Random` instances, as a deterministic
state machine over `Nat` states.  `init seed` models `random.Random(seed)`;
`randint`/`uniform` model the drawing methods, returning the drawn value and
the successor state.  The two membership fields record the documented range
contracts of `random.randint(lo, hi)` (inclusive both ends) and
`random.uniform(a, b)` (endpoints attainable by rounding). -/
structure RandomModel where
  init : Nat → Nat
  randint : Nat → Nat → Nat → Nat × Nat
  uniform : Nat → ℚ → ℚ → ℚ × Nat
  randint_mem : ∀ st lo hi, lo ≤ hi →
    lo ≤ (randint st lo hi).1 ∧ (randint st lo hi).1 ≤ hi
  uniform_mem : ∀ st a b, a ≤ b →
    a ≤ (uniform st a b).1 ∧ (uniform st a b).1 ≤ b

/-- The body of `_generate_simulated_metrics` once the seed has been computed:
seed the generator, draw `read_count = randint(100, 50000)`, then derive each
counter as `int(read_count * uniform(band))` in source order. -/
def genFromSeed (R : RandomModel) (seed : Nat) : MetricsDict :=
  let st0 := R.init seed
  let rd := R.randint st0 100 50000
  let r1 := R.uniform rd.2 (1/100) (5/100)
  let r2 := R.uniform r1.2 (5/1000) (2/100)
  let r3 := R.uniform r2.2 (1/1000) (1/100)
  let r4 := R.uniform r3.2 (5/1000) (3/100)
  let r5 := R.uniform r4.2 (5/1000) (2/100)
  { read_count := (rd.1 : Int)
    like_count := pyTrunc ((rd.1 : ℚ) * r1.1)
    wow_count := pyTrunc ((rd.1 : ℚ) * r2.1)
    comment_count := pyTrunc ((rd.1 : ℚ) * r3.1)
    share_count := pyTrunc ((rd.1 : ℚ) * r4.1)
    favorite_count := pyTrunc ((rd.1 : ℚ) * r5.1)
    is_simulated := true }

/-- Model of `MetricsFetcher._generate_simulated_metrics`: the seed is
`int(hashlib.md5(url.encode()).hexdigest(), 16) % (10**8)`; the MD5 digest
interpreted as a number is modelled by the abstract `md5int` parameter, the
`% 10**8` reduction is explicit here. -/
def generateSimulatedMetrics (R : RandomModel) (md5int : String → Nat)
    (url : String) : MetricsDict :=
  genFromSeed R (md5int url % 100000000)

/-- The provider-side metric fields that `fetch_article_metrics` reads out of
the parsed JSON response (`res_data.get(...)`).  `none` models an absent key. -/
structure ResData where
  read_num : Option Int
  real_read_num : Option Int
  like_num : Option Int
  read : Option Int
  zan : Option Int
  old_like_num : Option Int
  look_num : Option Int
  looking : Option Int
  share_num : Option Int
  fav_num : Option Int
  collect_num : Option Int
  comment_num : Option Int
  comment_count : Option Int
deriving DecidableEq, Repr

/-- Parsed JSON body of a metrics-API response: the top-level `code` field,
the optional nested `data` dictionary, and the top-level metric fields used
when `data` is absent or not a dictionary. -/
structure ApiBody where
  code : Option Int
  dataDict : Option ResData
  top : ResData
deriving DecidableEq, Repr

/-- Outcome of the `requests.post(...)`/`response.json()` pair inside the
`try` block: either some exception was raised, or a response with an HTTP
status code and a parsed JSON body was obtained. -/
inductive FetchOutcome where
  | raises : FetchOutcome
  | response (status : Nat) (body : ApiBody) : FetchOutcome
deriving DecidableEq, Repr

/-- Python truthiness of an optional int: `None` and `0` are falsy. -/
def truthy : Option Int → Bool
  | none => false
  | some v => v != 0

/-- Python `a or d` for `a` an optional int and `d` an int default:
the value of `a` if truthy, else `d`. -/
def pyOr (a : Option Int) (d : Int) : Int :=
  match a with
  | some v => if v ≠ 0 then v else d
  | none => d

/-- The selection `res_data = data.get('data'); if not isinstance(res_data, dict): res_data = data`. -/
def resDataOf (body : ApiBody) : ResData :=
  body.dataDict.getD body.top

/-- The check `any(res_data.get(k) for k in ["read_num", "real_read_num",
"like_num", "read", "zan"])` guarding the real-metrics branch. -/
def hasRecognizableMetric (rd : ResData) : Bool :=
  truthy rd.read_num || truthy rd.real_read_num || truthy rd.like_num ||
    truthy rd.read || truthy rd.zan

/-- The provider-alias mapping of the success branch of
`fetch_article_metrics`, field by field:
`read_count = real_read_num or read_num or get("read", 0)`;
`like_count` via `is not None` chains on `old_like_num`, `like_num`, `zan`;
`wow_count = look_num or get("looking", 0)`; `share_count = get("share_num", 0)`;
`favorite_count = fav_num or get("collect_num", 0)`;
`comment_count = comment_num or get("comment_count", 0)`. -/
def realMetrics (rd : ResData) : MetricsDict :=
  { read_count := pyOr rd.real_read_num (pyOr rd.read_num (rd.read.getD 0))
    like_count :=
      match rd.old_like_num with
      | some v => v
      | none =>
        match rd.like_num with
        | some v => v
        | none => rd.zan.getD 0
    wow_count := pyOr rd.look_num (rd.looking.getD 0)
    share_count := rd.share_num.getD 0
    favorite_count := pyOr rd.fav_num (rd.collect_num.getD 0)
    comment_count := pyOr rd.comment_num (rd.comment_count.getD 0)
    is_simulated := false }

/-- The constructor check `self.enabled = bool(self.api_key)`: a missing or empty key disables the
real API path. -/
def keyEnabled : Option String → Bool
  | none => false
  | some k => k != ""

/-- Model of `MetricsFetcher.fetch_article_metrics`: with the API disabled, or on any
transport exception, non-200 status, non-success provider code, or a success
response with no recognizable (truthy) metric field, fall back to the
deterministic simulation; otherwise map the provider aliases into the
canonical six-field shape with `is_simulated = false`. -/
def fetchArticleMetrics (R : RandomModel) (md5int : String → Nat)
    (apiKey : Option String) (url : String) (outcome : FetchOutcome) : MetricsDict :=
  if ¬ keyEnabled apiKey then generateSimulatedMetrics R md5int url
  else
    match outcome with
    | .raises => generateSimulatedMetrics R md5int url
    | .response status body =>
      if status ≠ 200 then generateSimulatedMetrics R md5int url
      else if body.code = some 1 ∨ body.code = some 0 then
        let rd := resDataOf body
        if ¬ hasRecognizableMetric rd then generateSimulatedMetrics R md5int url
        else realMetrics rd
      else generateSimulatedMetrics R md5int url

/-- The condition under which `fetch_article_metrics` returns real
(provider-mapped) counters: key enabled, HTTP 200, provider code 0 or 1, and
at least one recognizable metric field truthy. -/
def recognizedSuccess (apiKey : Option String) (outcome : FetchOutcome) : Bool :=
  keyEnabled apiKey &&
    match outcome with
    | .raises => false
    | .response status body =>
      status == 200 && (body.code == some 1 || body.code == some 0) &&
        hasRecognizableMetric (resDataOf body)

/-- A concrete instance of the `random.Random` interface, used to exercise the
theorems on closed inputs: every draw returns the lower end of the requested
range. -/
def trivialRandom : RandomModel where
  init := fun seed => seed
  randint := fun st lo _hi => (lo, st + 1)
  uniform := fun st a _b => (a, st + 1)
  randint_mem := fun _ _ _ h => ⟨le_refl _, h⟩
  uniform_mem := fun _ _ _ h => ⟨le_refl _, h⟩

/-- A concrete stand-in for the MD5-digest-as-integer function. -/
def zeroHash : String → Nat := fun _ => 0

/-! ## Sync manager (`sync_manager.py`, `SyncManager.sync_account`) -/

/-- The processed article payload produced by `content_processor.process_article`
for one feed entry.  `url`, `title` and `author` are the fields the sync loop
inspects; every other processed field (content, summary, images, dates, …) is
abstracted into the `rest` component, which the upsert writes verbatim. -/
structure Payload where
  url : String
  title : String
  author : String
  rest : Nat
deriving DecidableEq, Repr

/-- One `articles` row as the sync loop sees it: primary key, owning account,
the processed payload, and the metrics/scores written by the per-article
sub-step (absent until the sub-step first succeeds for the row). -/
structure Row where
  id : Nat
  accountId : Nat
  payload : Payload
  metrics : Option MetricsDict
  scores : Option ArticleScores
deriving DecidableEq, Repr

/-- The articles table: rows plus the autoincrement counter. -/
structure DBState where
  rows : List Row
  nextId : Nat
deriving DecidableEq, Repr

/-- Model of `db.get_article_by_url`: first row whose `url` column matches. -/
def getArticleByUrl (db : DBState) (url : String) : Option Row :=
  db.rows.find? (fun r => r.payload.url == url)

/-- Model of `db.create_article(account_id=..., **article_data)`: insert a fresh row
with a new primary key. -/
def createArticle (db : DBState) (accId : Nat) (p : Payload) : Row × DBState :=
  let r : Row := { id := db.nextId, accountId := accId, payload := p,
                   metrics := none, scores := none }
  (r, { rows := db.rows ++ [r], nextId := db.nextId + 1 })

/-- Model of `db.update_article(article_id, **article_data)`: overwrite the processed
fields of the row with the given primary key; metrics and scores columns are
not part of `article_data` and are left untouched. -/
def updateArticle (db : DBState) (rid : Nat) (p : Payload) : DBState :=
  { rows := db.rows.map (fun r => if r.id = rid then { r with payload := p } else r)
    nextId := db.nextId }

/-- View a fetched metrics dictionary as article counters (the sub-step's
`setattr` loop writes each matching counter column). -/
def countersOfMetrics (m : MetricsDict) : ArticleCounters :=
  { read_count := some m.read_count
    like_count := some m.like_count
    wow_count := some m.wow_count
    comment_count := some m.comment_count
    share_count := some m.share_count
    favorite_count := some m.favorite_count }

/-- The successful body of the metrics sub-step: load the row by id, apply
the fetched counters, recompute the scores via `calculate_scores`, commit. -/
def applyMetricsAndScores (db : DBState) (rid : Nat) (m : MetricsDict) : DBState :=
  { rows := db.rows.map (fun r =>
      if r.id = rid then
        { r with metrics := some m, scores := some (calculate_scores (countersOfMetrics m)) }
      else r)
    nextId := db.nextId }

/-- The `stats` dictionary of one sync run, plus `substepRuns`, an explicit
count of how many times control entered the metrics/score/persist sub-step
(the inner `try` block). -/
structure SyncStats where
  fetched : Nat
  new : Nat
  updated : Nat
  failed : Nat
  skipped : Nat
  substepRuns : Nat
deriving DecidableEq, Repr

/-- One feed entry as the sync loop consumes it.  `mainRaises` models an
exception escaping the entry's main phase (processing, author fallback, URL
lookup, insert or update) to the per-entry `except` handler; `payload` is the
`process_article` result when no such exception occurs; `substepRaises` models
an exception inside the metrics/score/persist sub-step, caught by the inner
`except`; `metrics` is the dictionary `fetch_article_metrics` returns for the
entry's URL. -/
structure SyncEntry where
  mainRaises : Bool
  payload : Payload
  substepRaises : Bool
  metrics : MetricsDict
deriving DecidableEq, Repr

/-- Python's `str.lower()`: lower-case the string character by character
(the strings this system compares are ASCII, where `Char.toLower` agrees
with Python). -/
def pyLower (s : String) : String := String.mk (s.data.map Char.toLower)

/-- The account-name author fallback in `sync_account`:
`if not article_data.get("author") or article_data["author"].lower() == "unknown"`. -/
def applyAuthorFallback (accName : String) (p : Payload) : Payload :=
  if p.author = "" ∨ pyLower p.author = "unknown" then { p with author := accName } else p

/-- The metrics/score/persist sub-step with its inner `try`/`except`: entering
it bumps `substepRuns`; a raised exception is caught and only logged (no
counter changes, no row changes); otherwise the metrics and recomputed scores
are committed to the row. -/
def runSubstep (db : DBState) (st : SyncStats) (rid : Nat) (e : SyncEntry) :
    DBState × SyncStats :=
  let st' := { st with substepRuns := st.substepRuns + 1 }
  if e.substepRaises then (db, st')
  else (applyMetricsAndScores db rid e.metrics, st')

/-- The body of the per-entry loop of `sync_account`: catch a main-phase
exception as `failed`; otherwise apply the author fallback, dedup by URL
(skip when present and not a full sync; overwrite in place on a full sync;
insert when absent) and run the metrics sub-step for inserted or updated
rows. -/
def stepEntry (fullSync : Bool) (accId : Nat) (accName : String)
    (s : DBState × SyncStats) (e : SyncEntry) : DBState × SyncStats :=
  let db := s.1
  let st := s.2
  if e.mainRaises then (db, { st with failed := st.failed + 1 })
  else
    let pay := applyAuthorFallback accName e.payload
    match getArticleByUrl db pay.url with
    | some row =>
      if ¬ fullSync then (db, { st with skipped := st.skipped + 1 })
      else
        runSubstep (updateArticle db row.id pay)
          { st with updated := st.updated + 1 } row.id e
    | none =>
      let created := createArticle db accId pay
      runSubstep created.2 { st with new := st.new + 1 } created.1.id e

/-- The whole per-entry loop of `sync_account`, starting from the zeroed
`stats` dictionary (with `fetched` set to the number of entries). -/
def syncEntries (fullSync : Bool) (accId : Nat) (accName : String)
    (db : DBState) (entries : List SyncEntry) : DBState × SyncStats :=
  entries.foldl (stepEntry fullSync accId accName)
    (db, { fetched := entries.length, new := 0, updated := 0, failed := 0,
           skipped := 0, substepRuns := 0 })

/-- The URL column of the table, in row order. -/
def urlsOf (db : DBState) : List String :=
  db.rows.map (fun r => r.payload.url)

/-- Whether some row of the table carries the given URL. -/
def hasUrl (db : DBState) (u : String) : Prop :=
  u ∈ urlsOf db

instance (db : DBState) (u : String) : Decidable (hasUrl db u) := by
  unfold hasUrl
  infer_instance

/-- Well-formedness maintained by the persistence layer: primary keys are
distinct and below the autoincrement counter. -/
def WFdb (db : DBState) : Prop :=
  (db.rows.map (fun r => r.id)).Nodup ∧ ∀ r ∈ db.rows, r.id < db.nextId

instance : DecidablePred WFdb := fun db => by
  unfold WFdb
  infer_instance

/-! Concrete sample values used to exercise the sync-loop theorems. -/

/-- An empty articles table. -/
def emptyDB : DBState := { rows := [], nextId := 0 }

/-- A zeroed stats record. -/
def zeroStats : SyncStats :=
  { fetched := 0, new := 0, updated := 0, failed := 0, skipped := 0, substepRuns := 0 }

/-- A trivial metrics dictionary. -/
def zeroMetrics : MetricsDict :=
  { read_count := 0, like_count := 0, wow_count := 0, comment_count := 0,
    share_count := 0, favorite_count := 0, is_simulated := true }

/-- A sample processed payload. -/
def payloadU1 : Payload := { url := "http://u1", title := "T", author := "A", rest := 0 }

/-- A sample entry that processes and persists cleanly. -/
def entryU1 : SyncEntry :=
  { mainRaises := false, payload := payloadU1, substepRaises := false,
    metrics := zeroMetrics }

/-- A sample entry whose metrics/score/persist sub-step raises. -/
def substepFailEntry : SyncEntry :=
  { mainRaises := false, payload := payloadU1, substepRaises := true,
    metrics := zeroMetrics }

/-- A sample entry whose main processing phase raises. -/
def raiseEntry : SyncEntry :=
  { mainRaises := true, payload := payloadU1, substepRaises := false,
    metrics := zeroMetrics }

/-- The row `payloadU1` occupies after a first insert. -/
def rowU1 : Row :=
  { id := 0, accountId := 1, payload := payloadU1, metrics := none, scores := none }

/-- A table already holding `payloadU1`'s URL. -/
def dbWithU1 : DBState := { rows := [rowU1], nextId := 1 }

/-! ## Content fetcher (`content_fetcher.py`) -/

/-- One entry of the image list built by `_extract_images`. -/
structure ImageInfo where
  url : String
  alt : String
  width : String
  height : String
deriving DecidableEq, Repr

/-- One entry of the video list built by `_extract_videos`. -/
structure VideoInfo where
  url : String
  poster : String
  kind : String
deriving DecidableEq, Repr

/-- The dictionary `_parse_wechat_html` returns. -/
structure ParsedContent where
  content_text : String
  content_html : String
  images : List ImageInfo
  videos : List VideoInfo
deriving DecidableEq, Repr

/-- Abstract interface to the BeautifulSoup document of one fetched page.
`jsContentDiv` is the result of `soup.find('div', {'id': 'js_content'})`,
`richMediaDiv` of the fallback `soup.find('div', class_=re.compile(r'rich_media_content'))`
(abstract node handles).  `extractText`, `extractImages` and `extractVideos`
model `_extract_text`, `_extract_images` and `_extract_videos` on the located
container; `innerHtml` models `str(content_div)` after the in-place
lazy-src/referrer/responsive rewrites of images and iframes. -/
structure Dom where
  jsContentDiv : Option Nat
  richMediaDiv : Option Nat
  extractText : Nat → String
  extractImages : Nat → String → List ImageInfo
  extractVideos : Nat → String → List VideoInfo
  innerHtml : Nat → String
deriving Inhabited

/-- The final string cleanup applied to `inner_html` before wrapping:
the three `.replace(...)` calls. -/
def cleanInnerHtml (s : String) : String :=
  ((s.replace "visibility: hidden;" "").replace "opacity: 0;" "").replace
    "display: none!important;" ""

/-- Opening part of the full-document wrapper built around the cleaned inner
HTML (doctype, charset/viewport/no-referrer meta tags and the fixed style
block; `\x7b`/`\x7d` denote the literal braces of the CSS). -/
def htmlDocHead : String :=
  "<!DOCTYPE html>\n<html>\n<head>\n    <meta charset=\"UTF-8\">\n" ++
    "    <meta name=\"viewport\" content=\"width=device-width, initial-scale=1.0\">\n" ++
    "    <meta name=\"referrer\" content=\"no-referrer\">\n    <style>\n" ++
    "        body \x7b \n            font-family: -apple-system, BlinkMacSystemFont, " ++
    "\"Segoe UI\", Roboto, Helvetica, Arial, sans-serif;\n            margin: 0;\n" ++
    "            padding: 0;\n            overflow-x: hidden;\n        \x7d\n" ++
    "        img \x7b \n            max-width: 100% !important; \n" ++
    "            height: auto !important; \n            display: block;\n" ++
    "            margin: 10px 0;\n        \x7d\n        iframe \x7b \n" ++
    "            max-width: 100% !important; \n        \x7d\n" ++
    "        .rich_media_content \x7b\n            overflow: hidden;\n        \x7d\n" ++
    "        .qr_code_pc_outer \x7b display: none !important; \x7d\n" ++
    "    </style>\n</head>\n<body>\n    "

/-- Closing part of the full-document wrapper. -/
def htmlDocTail : String := "\n</body>\n</html>"

/-- The `content_html` f-string of `_parse_wechat_html`. -/
def wrapContentHtml (inner : String) : String :=
  htmlDocHead ++ inner ++ htmlDocTail

/-- Model of `_parse_wechat_html`: locate the container by id `js_content`, falling
back to the `rich_media_content` class pattern; when neither exists return
empty text/html and empty media lists; otherwise extract text, images and
videos from the container and wrap its rewritten HTML in the full document
template. -/
def parseWechatHtml (dom : Dom) (baseUrl : String) : ParsedContent :=
  match dom.jsContentDiv.orElse (fun _ => dom.richMediaDiv) with
  | none => { content_text := "", content_html := "", images := [], videos := [] }
  | some d =>
    { content_text := dom.extractText d
      content_html := wrapContentHtml (cleanInnerHtml (dom.innerHtml d))
      images := dom.extractImages d baseUrl
      videos := dom.extractVideos d baseUrl }

/-- Python's `str.startswith`, over the character lists. -/
def pyStartswith (s pre : String) : Bool :=
  pre.data.isPrefixOf s.data

/-- Outcome of `self.session.get(url)` / `raise_for_status()`: either a
transport exception (including non-2xx statuses) or a parsed page. -/
inductive PageOutcome where
  | raises : PageOutcome
  | ok (dom : Dom) : PageOutcome

/-- Model of `ContentFetcher.fetch_article_content` (minus the 24-hour cache and the
inter-request delay, which do not change the returned value): reject empty or
non-HTTP URLs with `None`, return `None` on any transport exception, and
otherwise parse the page. -/
def fetchArticleContent (url : String) (o : PageOutcome) : Option ParsedContent :=
  if url = "" ∨ ¬ pyStartswith url "http" then none
  else
    match o with
    | .raises => none
    | .ok dom => some (parseWechatHtml dom url)

/-- A page with no recognizable content container. -/
def containerlessDom : Dom :=
  { jsContentDiv := none, richMediaDiv := none, extractText := fun _ => "",
    extractImages := fun _ _ => [], extractVideos := fun _ _ => [],
    innerHtml := fun _ => "" }

/-! ## Content processor (`content_processor.py`): author resolution -/

/-- A Python value sitting under the feed entry's `author` key: a string, an
author object (dictionary with an optional `name`), or `None`.  A missing
`author` key is modelled as `.str ""` (the `entry.get("author", "")`
default). -/
inductive PyVal where
  | str (s : String) : PyVal
  | dict (name : Option String) : PyVal
  | pyNone : PyVal
deriving DecidableEq, Repr

/-- One element of the feed entry's `authors` list: an author object, a plain
string, or a value of any other type (skipped by the extraction loop). -/
inductive AuthorsItem where
  | str (s : String) : AuthorsItem
  | dict (name : Option String) : AuthorsItem
  | other : AuthorsItem
deriving DecidableEq, Repr

/-- The author-relevant fields of one feed entry. -/
structure FeedEntry where
  author : PyVal
  authors : List AuthorsItem
  author_name : Option String
deriving DecidableEq, Repr

/-- The `author_names` list built from the `authors` list: dictionaries
contribute `a.get("name", "Unknown")`, strings contribute themselves, other
values are skipped. -/
def authorNamesOf (items : List AuthorsItem) : List String :=
  items.foldr
    (fun a acc =>
      match a with
      | .dict name => name.getD "Unknown" :: acc
      | .str s => s :: acc
      | .other => acc)
    []

/-- The author-resolution chain of `process_article`: a nonempty extracted
`authors`-list name set joins with `", "` and overrides the `author` field;
an author dictionary resolves to its `name` (default `"Unknown"`), a
non-string non-dictionary truthy value is stringified and `None` becomes
`""`; finally, an empty or case-insensitively `"unknown"` author falls back
to the entry-level `author_name` field (keeping the current value when that
key is absent). -/
def resolveAuthor (e : FeedEntry) : String :=
  let names := authorNamesOf e.authors
  let author1 : PyVal :=
    if e.authors ≠ [] ∧ names ≠ [] then .str (String.intercalate ", " names)
    else e.author
  let author2 : String :=
    match author1 with
    | .dict name => name.getD "Unknown"
    | .str s => s
    | .pyNone => ""
  if author2 = "" ∨ pyLower author2 = "unknown" then e.author_name.getD author2
  else author2

/-- The author finally stored by `sync_account` for one entry: the processor's
resolved author, replaced by the account's display name when empty or
case-insensitively `"unknown"`. -/
def storedAuthor (accName : String) (e : FeedEntry) : String :=
  let a := resolveAuthor e
  if a = "" ∨ pyLower a = "unknown" then accName else a

/-! ## Content processor: `_count_words` -/

/-- A CJK ideograph: the `[一-鿿]` character class of `_count_words`. -/
def isCJKChar (c : Char) : Bool :=
  0x4e00 ≤ c.toNat && c.toNat ≤ 0x9fff

/-- A regex word character (`\w`) over the alphabet this system processes:
ASCII letters and digits, the underscore, and CJK ideographs (Python's `\w`
matches all of these). -/
def isWordChar (c : Char) : Bool :=
  c.isAlphanum || c == '_' || isCJKChar c

/-- Maximal runs of characters satisfying `p`, in order; `cur` carries the
current run reversed. -/
def runsByAux (p : Char → Bool) : List Char → List Char → List (List Char)
  | cur, [] => if cur.isEmpty then [] else [cur.reverse]
  | cur, c :: rest =>
    if p c then runsByAux p (c :: cur) rest
    else if cur.isEmpty then runsByAux p [] rest
    else cur.reverse :: runsByAux p [] rest

/-- Maximal runs of characters satisfying `p`: the token list of
`re.findall(r'\b\w+\b', text)` when `p` is `isWordChar`, since `\b\w+\b`
matches exactly the maximal word-character runs. -/
def runsBy (p : Char → Bool) (s : List Char) : List (List Char) :=
  runsByAux p [] s

/-- The filter `not re.match(r'[一-鿿]', w)`: `re.match` anchors at
the start, so only the token's first character is tested. -/
def headNotCJK (t : List Char) : Bool :=
  match t with
  | [] => true
  | c :: _ => !isCJKChar c

/-- Model of `ContentProcessor._count_words`: 0 for a falsy text; otherwise the number
of CJK ideographs plus the number of regex word tokens whose first character
is not a CJK ideograph. -/
def count_words (text : String) : Nat :=
  if text = "" then 0
  else
    (text.data.filter isCJKChar).length +
      ((runsBy isWordChar text.data).filter headNotCJK).length

/-- Modelled from the spec's words (the claim's reading of the word count,
for comparison with `count_words`): the number of CJK ideographs plus the
number of whitespace-delimited tokens that are alphanumeric and not
themselves CJK. -/
def claimWordCount (text : String) : Nat :=
  (text.data.filter isCJKChar).length +
    ((runsBy (fun c => !c.isWhitespace) text.data).filter
      (fun t => t.all (fun c => c.isAlphanum || isCJKChar c) && !t.all isCJKChar)).length

/-- Compositional characterization of the token count: the number of
positions that start a word-character run with a non-CJK first character,
scanning left to right with `prevWord` recording whether the previous
character was a word character. -/
def countWordStarts (prevWord : Bool) : List Char → Nat
  | [] => 0
  | c :: rest =>
    (if isWordChar c && !prevWord && !isCJKChar c then 1 else 0) +
      countWordStarts (isWordChar c) rest

end WexinCrawler

namespace WexinCrawler

/-- C1: `calculate_scores` is total with a denominator clamped to at least 1
(so no division by zero even for a zero or null read count), computes the four
published formulas — on the spec's example counters it yields
`engagement_rate = 70`, `virality_index = 50`, `content_value_index = 25`,
`heat_score = 22` — and all four scores are non-negative whenever the six
counters are non-negative. -/
theorem calculate_scores_spec :
    (calculate_scores exampleCounters =
      { engagement_rate := 70, virality_index := 50,
        content_value_index := 25, heat_score := 22 }) ∧
    (∀ a : ArticleCounters, 1 ≤ clampedRead a) ∧
    (∀ a : ArticleCounters,
      0 ≤ a.read_count.getD 0 → 0 ≤ a.like_count.getD 0 → 0 ≤ a.wow_count.getD 0 →
      0 ≤ a.comment_count.getD 0 → 0 ≤ a.share_count.getD 0 → 0 ≤ a.favorite_count.getD 0 →
      0 ≤ (calculate_scores a).engagement_rate ∧
      0 ≤ (calculate_scores a).virality_index ∧
      0 ≤ (calculate_scores a).content_value_index ∧
      0 ≤ (calculate_scores a).heat_score) := by
  refine ⟨by norm_num [calculate_scores, clampedRead, exampleCounters], ?_, ?_⟩
  · intro a
    exact le_max_left 1 _
  · intro a hr hl hw hc hs hf
    have hread : (0:ℚ) ≤ clampedRead a := le_trans zero_le_one (le_max_left 1 _)
    have hl' : (0:ℚ) ≤ ((a.like_count.getD 0 : Int) : ℚ) := by exact_mod_cast hl
    have hw' : (0:ℚ) ≤ ((a.wow_count.getD 0 : Int) : ℚ) := by exact_mod_cast hw
    have hc' : (0:ℚ) ≤ ((a.comment_count.getD 0 : Int) : ℚ) := by exact_mod_cast hc
    have hs' : (0:ℚ) ≤ ((a.share_count.getD 0 : Int) : ℚ) := by exact_mod_cast hs
    have hf' : (0:ℚ) ≤ ((a.favorite_count.getD 0 : Int) : ℚ) := by exact_mod_cast hf
    refine ⟨?_, ?_, ?_, ?_⟩ <;>
      · simp only [calculate_scores]
        positivity

/-- Witness for C1's hypothesis-bearing conjuncts at the example counters. -/
theorem calculate_scores_spec_witness :
    1 ≤ clampedRead exampleCounters ∧
    0 ≤ (calculate_scores exampleCounters).engagement_rate ∧
    0 ≤ (calculate_scores exampleCounters).heat_score :=
  ⟨calculate_scores_spec.2.1 exampleCounters,
    (calculate_scores_spec.2.2 exampleCounters (by decide) (by decide) (by decide)
      (by decide) (by decide) (by decide)).1,
    (calculate_scores_spec.2.2 exampleCounters (by decide) (by decide) (by decide)
      (by decide) (by decide) (by decide)).2.2.2⟩

/-- Range and shape facts about one simulated draw: the read count lies in
`[100, 50000]` and every derived counter is the truncation of the read count
times a ratio drawn from its fixed band. -/
theorem genFromSeed_spec (R : RandomModel) (s : Nat) :
    (genFromSeed R s).is_simulated = true ∧
    (100 ≤ (genFromSeed R s).read_count ∧ (genFromSeed R s).read_count ≤ 50000) ∧
    (∃ r : ℚ, 1/100 ≤ r ∧ r ≤ 5/100 ∧
      (genFromSeed R s).like_count = pyTrunc (((genFromSeed R s).read_count : ℚ) * r)) ∧
    (∃ r : ℚ, 5/1000 ≤ r ∧ r ≤ 2/100 ∧
      (genFromSeed R s).wow_count = pyTrunc (((genFromSeed R s).read_count : ℚ) * r)) ∧
    (∃ r : ℚ, 1/1000 ≤ r ∧ r ≤ 1/100 ∧
      (genFromSeed R s).comment_count = pyTrunc (((genFromSeed R s).read_count : ℚ) * r)) ∧
    (∃ r : ℚ, 5/1000 ≤ r ∧ r ≤ 3/100 ∧
      (genFromSeed R s).share_count = pyTrunc (((genFromSeed R s).read_count : ℚ) * r)) ∧
    (∃ r : ℚ, 5/1000 ≤ r ∧ r ≤ 2/100 ∧
      (genFromSeed R s).favorite_count = pyTrunc (((genFromSeed R s).read_count : ℚ) * r)) := by
  have hrd := R.randint_mem (R.init s) 100 50000 (by norm_num)
  simp only [genFromSeed]
  refine ⟨by trivial, ⟨by exact_mod_cast hrd.1, by exact_mod_cast hrd.2⟩, ?_, ?_, ?_, ?_, ?_⟩
  · obtain ⟨h1, h2⟩ := R.uniform_mem (R.randint (R.init s) 100 50000).2 (1/100) (5/100)
      (by norm_num)
    exact ⟨_, h1, h2, by push_cast; rfl⟩
  · obtain ⟨h1, h2⟩ := R.uniform_mem
      (R.uniform (R.randint (R.init s) 100 50000).2 (1/100) (5/100)).2 (5/1000) (2/100)
      (by norm_num)
    exact ⟨_, h1, h2, by push_cast; rfl⟩
  · obtain ⟨h1, h2⟩ := R.uniform_mem
      (R.uniform (R.uniform (R.randint (R.init s) 100 50000).2 (1/100) (5/100)).2
        (5/1000) (2/100)).2 (1/1000) (1/100) (by norm_num)
    exact ⟨_, h1, h2, by push_cast; rfl⟩
  · obtain ⟨h1, h2⟩ := R.uniform_mem
      (R.uniform (R.uniform (R.uniform (R.randint (R.init s) 100 50000).2
        (1/100) (5/100)).2 (5/1000) (2/100)).2 (1/1000) (1/100)).2 (5/1000) (3/100)
      (by norm_num)
    exact ⟨_, h1, h2, by push_cast; rfl⟩
  · obtain ⟨h1, h2⟩ := R.uniform_mem
      (R.uniform (R.uniform (R.uniform (R.uniform (R.randint (R.init s) 100 50000).2
        (1/100) (5/100)).2 (5/1000) (2/100)).2 (1/1000) (1/100)).2 (5/1000) (3/100)).2
      (5/1000) (2/100) (by norm_num)
    exact ⟨_, h1, h2, by push_cast; rfl⟩

/-- C2: the simulated-metrics generator is deterministic per URL — its output
is a function of `md5(url) % 10^8` alone, so any two calls on the same URL
(or any two URLs with the same reduced hash) return identical dictionaries
with `is_simulated = true` — the read count lies in `[100, 50000]`, and each
derived counter is the read count times a ratio drawn from its fixed band
(likes 1–5%, wow 0.5–2%, comments 0.1–1%, shares 0.5–3%, favorites 0.5–2%)
truncated to an integer. -/
theorem simulated_metrics_deterministic (R : RandomModel) (md5int : String → Nat)
    (u v : String) :
    (md5int u % 100000000 = md5int v % 100000000 →
      generateSimulatedMetrics R md5int u = generateSimulatedMetrics R md5int v) ∧
    (generateSimulatedMetrics R md5int u).is_simulated = true ∧
    (100 ≤ (generateSimulatedMetrics R md5int u).read_count ∧
      (generateSimulatedMetrics R md5int u).read_count ≤ 50000) ∧
    (∃ r : ℚ, 1/100 ≤ r ∧ r ≤ 5/100 ∧
      (generateSimulatedMetrics R md5int u).like_count =
        pyTrunc (((generateSimulatedMetrics R md5int u).read_count : ℚ) * r)) ∧
    (∃ r : ℚ, 5/1000 ≤ r ∧ r ≤ 2/100 ∧
      (generateSimulatedMetrics R md5int u).wow_count =
        pyTrunc (((generateSimulatedMetrics R md5int u).read_count : ℚ) * r)) ∧
    (∃ r : ℚ, 1/1000 ≤ r ∧ r ≤ 1/100 ∧
      (generateSimulatedMetrics R md5int u).comment_count =
        pyTrunc (((generateSimulatedMetrics R md5int u).read_count : ℚ) * r)) ∧
    (∃ r : ℚ, 5/1000 ≤ r ∧ r ≤ 3/100 ∧
      (generateSimulatedMetrics R md5int u).share_count =
        pyTrunc (((generateSimulatedMetrics R md5int u).read_count : ℚ) * r)) ∧
    (∃ r : ℚ, 5/1000 ≤ r ∧ r ≤ 2/100 ∧
      (generateSimulatedMetrics R md5int u).favorite_count =
        pyTrunc (((generateSimulatedMetrics R md5int u).read_count : ℚ) * r)) := by
  constructor
  · intro h
    unfold generateSimulatedMetrics
    rw [h]
  · exact genFromSeed_spec R (md5int u % 100000000)

/-- C6: `fetch_article_metrics` is total (the embedding returns a six-counter
dictionary on every outcome, including raised transport exceptions): whenever
the key is unconfigured, the request raises, the status is not 200, the
provider code is not a success code, or the success payload has no truthy
recognizable metric field, it returns the simulated metrics for the URL; and
it returns the provider-mapped counters with `is_simulated = false` exactly on
a recognized success payload. -/
theorem fetch_article_metrics_total (R : RandomModel) (md5int : String → Nat)
    (apiKey : Option String) (url : String) (outcome : FetchOutcome) :
    (recognizedSuccess apiKey outcome = false →
      fetchArticleMetrics R md5int apiKey url outcome =
        generateSimulatedMetrics R md5int url) ∧
    (∀ status body, outcome = .response status body →
      recognizedSuccess apiKey outcome = true →
      fetchArticleMetrics R md5int apiKey url outcome = realMetrics (resDataOf body)) ∧
    ((fetchArticleMetrics R md5int apiKey url outcome).is_simulated = false ↔
      recognizedSuccess apiKey outcome = true) := by
  have hsim : (generateSimulatedMetrics R md5int url).is_simulated = true := by
    simp [generateSimulatedMetrics, genFromSeed]
  cases hk : keyEnabled apiKey with
  | false => simp [fetchArticleMetrics, recognizedSuccess, hk, hsim]
  | true =>
    cases outcome with
    | raises => simp [fetchArticleMetrics, recognizedSuccess, hk, hsim]
    | response status body =>
      by_cases hst : status = 200
      · by_cases hcode : body.code = some 1 ∨ body.code = some 0
        · have hcodeb : (body.code == some 1 || body.code == some 0) = true := by
            rcases hcode with h | h <;> simp [h]
          by_cases hrec : hasRecognizableMetric (resDataOf body) = true
          · simp [fetchArticleMetrics, recognizedSuccess, hk, hst, hcode, hcodeb, hrec,
              realMetrics]
          · have hrec' : hasRecognizableMetric (resDataOf body) = false := by
              simpa using hrec
            simp [fetchArticleMetrics, recognizedSuccess, hk, hst, hcode, hcodeb, hrec',
              hsim]
        · have hcodeb : (body.code == some 1 || body.code == some 0) = false := by
            simp only [Bool.or_eq_false_iff, beq_eq_false_iff_ne, ne_eq]
            exact ⟨fun h => hcode (Or.inl h), fun h => hcode (Or.inr h)⟩
          simp [fetchArticleMetrics, recognizedSuccess, hk, hst, hcode, hcodeb, hsim]
      · simp [fetchArticleMetrics, recognizedSuccess, hk, hst, hsim]

/-- Witness for C6's hypothesis-bearing conjuncts at a concrete outcome: a
success response whose `data` carries a truthy `read_num`. -/
theorem fetch_article_metrics_total_witness :
    fetchArticleMetrics trivialRandom zeroHash (some "k") "http://a"
        (.response 200
          { code := some 0
            dataDict := some
              { read_num := some 1200, real_read_num := none, like_num := some 30
                read := none, zan := none, old_like_num := none, look_num := some 7
                looking := none, share_num := some 4, fav_num := none
                collect_num := some 2, comment_num := none, comment_count := some 5 }
            top := { read_num := none, real_read_num := none, like_num := none
                     read := none, zan := none, old_like_num := none, look_num := none
                     looking := none, share_num := none, fav_num := none
                     collect_num := none, comment_num := none, comment_count := none } }) =
      { read_count := 1200, like_count := 30, wow_count := 7, comment_count := 5
        share_count := 4, favorite_count := 2, is_simulated := false } := by
  have h := (fetch_article_metrics_total trivialRandom zeroHash (some "k") "http://a"
    (.response 200
      { code := some 0
        dataDict := some
          { read_num := some 1200, real_read_num := none, like_num := some 30
            read := none, zan := none, old_like_num := none, look_num := some 7
            looking := none, share_num := some 4, fav_num := none
            collect_num := some 2, comment_num := none, comment_count := some 5 }
        top := { read_num := none, real_read_num := none, like_num := none
                 read := none, zan := none, old_like_num := none, look_num := none
                 looking := none, share_num := none, fav_num := none
                 collect_num := none, comment_num := none, comment_count := none } })).2.1
    200 _ rfl (by decide)
  rw [h]
  decide

/-- C10: with a key configured, on an HTTP-200 success-code response whose
five recognized metric fields (`read_num`, `real_read_num`, `like_num`,
`read`, `zan`) are all absent, zero, or otherwise falsy, the fetcher returns
the simulated metrics with `is_simulated = true` — a genuinely all-zero
article is never stored with real zero metrics. -/
theorem all_falsy_metrics_simulated (R : RandomModel) (md5int : String → Nat)
    (k : String) (url : String) (body : ApiBody)
    (hk : keyEnabled (some k) = true)
    (hcode : body.code = some 1 ∨ body.code = some 0)
    (h1 : truthy (resDataOf body).read_num = false)
    (h2 : truthy (resDataOf body).real_read_num = false)
    (h3 : truthy (resDataOf body).like_num = false)
    (h4 : truthy (resDataOf body).read = false)
    (h5 : truthy (resDataOf body).zan = false) :
    fetchArticleMetrics R md5int (some k) url (.response 200 body) =
      generateSimulatedMetrics R md5int url ∧
    (fetchArticleMetrics R md5int (some k) url (.response 200 body)).is_simulated = true := by
  have hrec : hasRecognizableMetric (resDataOf body) = false := by
    simp [hasRecognizableMetric, h1, h2, h3, h4, h5]
  have heq : fetchArticleMetrics R md5int (some k) url (.response 200 body) =
      generateSimulatedMetrics R md5int url := by
    simp [fetchArticleMetrics, hk, hcode, hrec]
  exact ⟨heq, by rw [heq]; simp [generateSimulatedMetrics, genFromSeed]⟩

/-- Witness for C10: a success response whose metric fields are all absent or
zero routes to simulation. -/
theorem all_falsy_metrics_simulated_witness :
    fetchArticleMetrics trivialRandom zeroHash (some "k") "http://a"
        (.response 200
          { code := some 0
            dataDict := some
              { read_num := some 0, real_read_num := none, like_num := some 0
                read := none, zan := none, old_like_num := none, look_num := none
                looking := none, share_num := none, fav_num := none
                collect_num := none, comment_num := none, comment_count := none }
            top := { read_num := none, real_read_num := none, like_num := none
                     read := none, zan := none, old_like_num := none, look_num := none
                     looking := none, share_num := none, fav_num := none
                     collect_num := none, comment_num := none, comment_count := none } }) =
      generateSimulatedMetrics trivialRandom zeroHash "http://a" :=
  (all_falsy_metrics_simulated trivialRandom zeroHash "k" "http://a" _
    (by decide) (Or.inr rfl) (by decide) (by decide) (by decide) (by decide) (by decide)).1

/-- Witness for C2 at a concrete generator instance, hash function and URL
pair with equal hashes. -/
theorem simulated_metrics_deterministic_witness :
    generateSimulatedMetrics trivialRandom zeroHash "http://a" =
      generateSimulatedMetrics trivialRandom zeroHash "http://b" ∧
    100 ≤ (generateSimulatedMetrics trivialRandom zeroHash "http://a").read_count :=
  ⟨(simulated_metrics_deterministic trivialRandom zeroHash "http://a" "http://b").1 rfl,
    (simulated_metrics_deterministic trivialRandom zeroHash "http://a" "http://b").2.2.1.1⟩

/-! ### Helper lemmas about the sync-loop state machine -/

theorem urlsOf_applyMetricsAndScores (db : DBState) (rid : Nat) (m : MetricsDict) :
    urlsOf (applyMetricsAndScores db rid m) = urlsOf db := by
  unfold urlsOf applyMetricsAndScores
  simp only [List.map_map]
  apply List.map_congr_left
  intro r _
  by_cases h : r.id = rid <;> simp [h]

theorem ids_applyMetricsAndScores (db : DBState) (rid : Nat) (m : MetricsDict) :
    (applyMetricsAndScores db rid m).rows.map (fun r => r.id) =
      db.rows.map (fun r => r.id) := by
  unfold applyMetricsAndScores
  simp only [List.map_map]
  apply List.map_congr_left
  intro r _
  by_cases h : r.id = rid <;> simp [h]

theorem ids_updateArticle (db : DBState) (rid : Nat) (p : Payload) :
    (updateArticle db rid p).rows.map (fun r => r.id) = db.rows.map (fun r => r.id) := by
  unfold updateArticle
  simp only [List.map_map]
  apply List.map_congr_left
  intro r _
  by_cases h : r.id = rid <;> simp [h]

theorem urlsOf_updateArticle_found (db : DBState) (pay : Payload) (row : Row)
    (hnd : (db.rows.map (fun r => r.id)).Nodup)
    (hfind : getArticleByUrl db pay.url = some row) :
    urlsOf (updateArticle db row.id pay) = urlsOf db := by
  have hmem : row ∈ db.rows := List.mem_of_find?_eq_some hfind
  have hurl : row.payload.url = pay.url := by
    have := List.find?_some hfind
    simpa using this
  unfold urlsOf updateArticle
  simp only [List.map_map]
  apply List.map_congr_left
  intro r hr
  by_cases h : r.id = row.id
  · have hrw : r = row := List.inj_on_of_nodup_map hnd hr hmem h
    subst hrw
    simp [h, hurl]
  · simp [h]

theorem WFdb_applyMetricsAndScores (db : DBState) (rid : Nat) (m : MetricsDict)
    (h : WFdb db) : WFdb (applyMetricsAndScores db rid m) := by
  obtain ⟨hnd, hub⟩ := h
  constructor
  · rw [ids_applyMetricsAndScores]
    exact hnd
  · intro r hr
    obtain ⟨r0, hr0, rfl⟩ := List.mem_map.mp hr
    by_cases h0 : r0.id = rid
    · exact h0 ▸ (by simpa [h0] using hub r0 hr0)
    · simpa [h0] using hub r0 hr0

theorem WFdb_updateArticle (db : DBState) (rid : Nat) (p : Payload)
    (h : WFdb db) : WFdb (updateArticle db rid p) := by
  obtain ⟨hnd, hub⟩ := h
  constructor
  · rw [ids_updateArticle]
    exact hnd
  · intro r hr
    obtain ⟨r0, hr0, rfl⟩ := List.mem_map.mp hr
    by_cases h0 : r0.id = rid
    · exact h0 ▸ (by simpa [h0] using hub r0 hr0)
    · simpa [h0] using hub r0 hr0

theorem WFdb_createArticle (db : DBState) (accId : Nat) (p : Payload)
    (h : WFdb db) : WFdb (createArticle db accId p).2 := by
  obtain ⟨hnd, hub⟩ := h
  constructor
  · unfold createArticle
    simp only [List.map_append, List.map_cons, List.map_nil]
    refine List.Nodup.append hnd (List.nodup_singleton _) ?_
    intro a ha ha'
    simp only [List.mem_singleton] at ha'
    obtain ⟨r0, hr0, rfl⟩ := List.mem_map.mp ha
    exact absurd ha' (Nat.ne_of_lt (hub r0 hr0))
  · intro r hr
    unfold createArticle at hr
    simp only [List.mem_append, List.mem_singleton] at hr
    rcases hr with hr | rfl
    · exact Nat.lt_succ_of_lt (hub r hr)
    · exact Nat.lt_succ_self _

theorem urlsOf_createArticle (db : DBState) (accId : Nat) (p : Payload) :
    urlsOf (createArticle db accId p).2 = urlsOf db ++ [p.url] := by
  unfold urlsOf createArticle
  simp

theorem urlsOf_runSubstep (db : DBState) (st : SyncStats) (rid : Nat) (e : SyncEntry) :
    urlsOf (runSubstep db st rid e).1 = urlsOf db := by
  unfold runSubstep
  cases hs : e.substepRaises <;> simp [hs, urlsOf_applyMetricsAndScores]

theorem ids_runSubstep (db : DBState) (st : SyncStats) (rid : Nat) (e : SyncEntry) :
    (runSubstep db st rid e).1.rows.map (fun r => r.id) = db.rows.map (fun r => r.id) := by
  unfold runSubstep
  cases hs : e.substepRaises <;> simp [hs, ids_applyMetricsAndScores]

theorem WFdb_runSubstep (db : DBState) (st : SyncStats) (rid : Nat) (e : SyncEntry)
    (h : WFdb db) : WFdb (runSubstep db st rid e).1 := by
  unfold runSubstep
  cases hs : e.substepRaises <;> simp [hs, WFdb_applyMetricsAndScores, h]

theorem runSubstep_stats (db : DBState) (st : SyncStats) (rid : Nat) (e : SyncEntry) :
    (runSubstep db st rid e).2 = { st with substepRuns := st.substepRuns + 1 } := by
  unfold runSubstep
  cases hs : e.substepRaises <;> simp [hs]

theorem stepEntry_raise (f : Bool) (accId : Nat) (accName : String) (db : DBState)
    (st : SyncStats) (e : SyncEntry) (hm : e.mainRaises = true) :
    stepEntry f accId accName (db, st) e = (db, { st with failed := st.failed + 1 }) := by
  simp [stepEntry, hm]

theorem stepEntry_skip (accId : Nat) (accName : String) (db : DBState)
    (st : SyncStats) (e : SyncEntry) (row : Row) (hm : e.mainRaises = false)
    (hfind : getArticleByUrl db (applyAuthorFallback accName e.payload).url = some row) :
    stepEntry false accId accName (db, st) e =
      (db, { st with skipped := st.skipped + 1 }) := by
  simp [stepEntry, hm, hfind]

theorem stepEntry_update (accId : Nat) (accName : String) (db : DBState)
    (st : SyncStats) (e : SyncEntry) (row : Row) (hm : e.mainRaises = false)
    (hfind : getArticleByUrl db (applyAuthorFallback accName e.payload).url = some row) :
    stepEntry true accId accName (db, st) e =
      runSubstep (updateArticle db row.id (applyAuthorFallback accName e.payload))
        { st with updated := st.updated + 1 } row.id e := by
  simp [stepEntry, hm, hfind]

theorem stepEntry_insert (f : Bool) (accId : Nat) (accName : String) (db : DBState)
    (st : SyncStats) (e : SyncEntry) (hm : e.mainRaises = false)
    (hfind : getArticleByUrl db (applyAuthorFallback accName e.payload).url = none) :
    stepEntry f accId accName (db, st) e =
      runSubstep (createArticle db accId (applyAuthorFallback accName e.payload)).2
        { st with new := st.new + 1 }
        (createArticle db accId (applyAuthorFallback accName e.payload)).1.id e := by
  simp [stepEntry, hm, hfind]

theorem stepEntry_failed_count (f : Bool) (accId : Nat) (accName : String)
    (db : DBState) (st : SyncStats) (e : SyncEntry) :
    (stepEntry f accId accName (db, st) e).2.failed =
      st.failed + (if e.mainRaises then 1 else 0) := by
  cases hm : e.mainRaises
  · cases hfind : getArticleByUrl db (applyAuthorFallback accName e.payload).url with
    | none =>
      rw [stepEntry_insert f accId accName db st e hm hfind, runSubstep_stats]
      simp
    | some row =>
      cases f
      · rw [stepEntry_skip accId accName db st e row hm hfind]
        simp
      · rw [stepEntry_update accId accName db st e row hm hfind, runSubstep_stats]
        simp
  · rw [stepEntry_raise f accId accName db st e hm]
    simp

theorem stepEntry_recorded_count (f : Bool) (accId : Nat) (accName : String)
    (db : DBState) (st : SyncStats) (e : SyncEntry) :
    (stepEntry f accId accName (db, st) e).2.new +
      (stepEntry f accId accName (db, st) e).2.updated +
      (stepEntry f accId accName (db, st) e).2.skipped =
      st.new + st.updated + st.skipped + (if e.mainRaises then 0 else 1) := by
  cases hm : e.mainRaises
  · cases hfind : getArticleByUrl db (applyAuthorFallback accName e.payload).url with
    | none =>
      rw [stepEntry_insert f accId accName db st e hm hfind, runSubstep_stats]
      simp
      omega
    | some row =>
      cases f
      · rw [stepEntry_skip accId accName db st e row hm hfind]
        simp
        omega
      · rw [stepEntry_update accId accName db st e row hm hfind, runSubstep_stats]
        simp
        omega
  · rw [stepEntry_raise f accId accName db st e hm]
    simp

theorem WFdb_stepEntry (f : Bool) (accId : Nat) (accName : String) (db : DBState)
    (st : SyncStats) (e : SyncEntry) (h : WFdb db) :
    WFdb (stepEntry f accId accName (db, st) e).1 := by
  cases hm : e.mainRaises
  · cases hfind : getArticleByUrl db (applyAuthorFallback accName e.payload).url with
    | none =>
      rw [stepEntry_insert f accId accName db st e hm hfind]
      exact WFdb_runSubstep _ _ _ _ (WFdb_createArticle db accId _ h)
    | some row =>
      cases f
      · rw [stepEntry_skip accId accName db st e row hm hfind]
        exact h
      · rw [stepEntry_update accId accName db st e row hm hfind]
        exact WFdb_runSubstep _ _ _ _ (WFdb_updateArticle db row.id _ h)
  · rw [stepEntry_raise f accId accName db st e hm]
    exact h

theorem hasUrl_mono_stepEntry (f : Bool) (accId : Nat) (accName : String)
    (db : DBState) (st : SyncStats) (e : SyncEntry) (u : String) (hwf : WFdb db)
    (h : hasUrl db u) : hasUrl (stepEntry f accId accName (db, st) e).1 u := by
  cases hm : e.mainRaises
  · cases hfind : getArticleByUrl db (applyAuthorFallback accName e.payload).url with
    | none =>
      rw [stepEntry_insert f accId accName db st e hm hfind]
      unfold hasUrl
      rw [urlsOf_runSubstep, urlsOf_createArticle]
      exact List.mem_append_left _ h
    | some row =>
      cases f
      · rw [stepEntry_skip accId accName db st e row hm hfind]
        exact h
      · rw [stepEntry_update accId accName db st e row hm hfind]
        unfold hasUrl
        rw [urlsOf_runSubstep, urlsOf_updateArticle_found db _ row hwf.1 hfind]
        exact h
  · rw [stepEntry_raise f accId accName db st e hm]
    exact h

theorem hasUrl_self_stepEntry (f : Bool) (accId : Nat) (accName : String)
    (db : DBState) (st : SyncStats) (e : SyncEntry) (hwf : WFdb db)
    (hm : e.mainRaises = false) :
    hasUrl (stepEntry f accId accName (db, st) e).1
      (applyAuthorFallback accName e.payload).url := by
  cases hfind : getArticleByUrl db (applyAuthorFallback accName e.payload).url with
  | none =>
    rw [stepEntry_insert f accId accName db st e hm hfind]
    unfold hasUrl
    rw [urlsOf_runSubstep, urlsOf_createArticle]
    exact List.mem_append_right _ (List.mem_singleton.mpr rfl)
  | some row =>
    have hmem : row ∈ db.rows := List.mem_of_find?_eq_some hfind
    have hurl : row.payload.url = (applyAuthorFallback accName e.payload).url := by
      have := List.find?_some hfind
      simpa using this
    have hpresent : hasUrl db (applyAuthorFallback accName e.payload).url := by
      unfold hasUrl urlsOf
      exact List.mem_map.mpr ⟨row, hmem, hurl⟩
    exact hasUrl_mono_stepEntry f accId accName db st e _ hwf hpresent

theorem urlsOf_nodup_stepEntry (f : Bool) (accId : Nat) (accName : String)
    (db : DBState) (st : SyncStats) (e : SyncEntry) (hwf : WFdb db)
    (hnd : (urlsOf db).Nodup) :
    (urlsOf (stepEntry f accId accName (db, st) e).1).Nodup := by
  cases hm : e.mainRaises
  · cases hfind : getArticleByUrl db (applyAuthorFallback accName e.payload).url with
    | none =>
      rw [stepEntry_insert f accId accName db st e hm hfind]
      rw [urlsOf_runSubstep, urlsOf_createArticle]
      have hnotmem : (applyAuthorFallback accName e.payload).url ∉ urlsOf db := by
        intro hmem
        obtain ⟨r, hr, hurl⟩ := List.mem_map.mp hmem
        have := List.find?_eq_none.mp hfind r hr
        simp [hurl] at this
      refine List.Nodup.append hnd (List.nodup_singleton _) ?_
      intro x hx hx'
      simp only [List.mem_singleton] at hx'
      exact hnotmem (hx' ▸ hx)
    | some row =>
      cases f
      · rw [stepEntry_skip accId accName db st e row hm hfind]
        exact hnd
      · rw [stepEntry_update accId accName db st e row hm hfind]
        rw [urlsOf_runSubstep, urlsOf_updateArticle_found db _ row hwf.1 hfind]
        exact hnd
  · rw [stepEntry_raise f accId accName db st e hm]
    exact hnd

theorem foldl_failed_count (f : Bool) (accId : Nat) (accName : String) :
    ∀ (entries : List SyncEntry) (db : DBState) (st : SyncStats),
      ((entries.foldl (stepEntry f accId accName) (db, st)).2).failed =
        st.failed + (entries.filter (fun e => e.mainRaises)).length := by
  intro entries
  induction entries with
  | nil => intro db st; simp
  | cons e es ih =>
    intro db st
    rw [List.foldl_cons,
      show stepEntry f accId accName (db, st) e =
        ((stepEntry f accId accName (db, st) e).1,
          (stepEntry f accId accName (db, st) e).2) from rfl,
      ih, stepEntry_failed_count]
    cases hm : e.mainRaises <;> (simp [List.filter_cons, hm]; try omega)

theorem foldl_recorded_count (f : Bool) (accId : Nat) (accName : String) :
    ∀ (entries : List SyncEntry) (db : DBState) (st : SyncStats),
      ((entries.foldl (stepEntry f accId accName) (db, st)).2).new +
        ((entries.foldl (stepEntry f accId accName) (db, st)).2).updated +
        ((entries.foldl (stepEntry f accId accName) (db, st)).2).skipped =
        st.new + st.updated + st.skipped +
          (entries.filter (fun e => !e.mainRaises)).length := by
  intro entries
  induction entries with
  | nil => intro db st; simp
  | cons e es ih =>
    intro db st
    rw [List.foldl_cons,
      show stepEntry f accId accName (db, st) e =
        ((stepEntry f accId accName (db, st) e).1,
          (stepEntry f accId accName (db, st) e).2) from rfl,
      ih, stepEntry_recorded_count]
    cases hm : e.mainRaises <;> (simp [List.filter_cons, hm]; try omega)

theorem foldl_WFdb (f : Bool) (accId : Nat) (accName : String) :
    ∀ (entries : List SyncEntry) (db : DBState) (st : SyncStats), WFdb db →
      WFdb (entries.foldl (stepEntry f accId accName) (db, st)).1 := by
  intro entries
  induction entries with
  | nil => intro db st h; simpa using h
  | cons e es ih =>
    intro db st h
    rw [List.foldl_cons,
      show stepEntry f accId accName (db, st) e =
        ((stepEntry f accId accName (db, st) e).1,
          (stepEntry f accId accName (db, st) e).2) from rfl]
    exact ih _ _ (WFdb_stepEntry f accId accName db st e h)

theorem foldl_hasUrl_mono (f : Bool) (accId : Nat) (accName : String) :
    ∀ (entries : List SyncEntry) (db : DBState) (st : SyncStats) (u : String),
      WFdb db → hasUrl db u →
      hasUrl (entries.foldl (stepEntry f accId accName) (db, st)).1 u := by
  intro entries
  induction entries with
  | nil => intro db st u _ h; simpa using h
  | cons e es ih =>
    intro db st u hwf h
    rw [List.foldl_cons,
      show stepEntry f accId accName (db, st) e =
        ((stepEntry f accId accName (db, st) e).1,
          (stepEntry f accId accName (db, st) e).2) from rfl]
    exact ih _ _ u (WFdb_stepEntry f accId accName db st e hwf)
      (hasUrl_mono_stepEntry f accId accName db st e u hwf h)

theorem foldl_processed_present (f : Bool) (accId : Nat) (accName : String) :
    ∀ (entries : List SyncEntry) (db : DBState) (st : SyncStats), WFdb db →
      ∀ e ∈ entries, e.mainRaises = false →
        hasUrl (entries.foldl (stepEntry f accId accName) (db, st)).1
          (applyAuthorFallback accName e.payload).url := by
  intro entries
  induction entries with
  | nil => intro db st _ e he; exact absurd he (List.not_mem_nil e)
  | cons e0 es ih =>
    intro db st hwf e he hm
    rw [List.foldl_cons,
      show stepEntry f accId accName (db, st) e0 =
        ((stepEntry f accId accName (db, st) e0).1,
          (stepEntry f accId accName (db, st) e0).2) from rfl]
    rcases List.mem_cons.mp he with rfl | hes
    · exact foldl_hasUrl_mono f accId accName es _ _ _
        (WFdb_stepEntry f accId accName db st e hwf)
        (hasUrl_self_stepEntry f accId accName db st e hwf hm)
    · exact ih _ _ (WFdb_stepEntry f accId accName db st e0 hwf) e hes hm

theorem foldl_urlsOf_nodup (f : Bool) (accId : Nat) (accName : String) :
    ∀ (entries : List SyncEntry) (db : DBState) (st : SyncStats), WFdb db →
      (urlsOf db).Nodup →
      (urlsOf (entries.foldl (stepEntry f accId accName) (db, st)).1).Nodup := by
  intro entries
  induction entries with
  | nil => intro db st _ h; simpa using h
  | cons e es ih =>
    intro db st hwf hnd
    rw [List.foldl_cons,
      show stepEntry f accId accName (db, st) e =
        ((stepEntry f accId accName (db, st) e).1,
          (stepEntry f accId accName (db, st) e).2) from rfl]
    exact ih _ _ (WFdb_stepEntry f accId accName db st e hwf)
      (urlsOf_nodup_stepEntry f accId accName db st e hwf hnd)

theorem foldl_second_run (accId : Nat) (accName : String) :
    ∀ (entries : List SyncEntry) (db : DBState) (st : SyncStats),
      (∀ e ∈ entries, e.mainRaises = false →
        hasUrl db (applyAuthorFallback accName e.payload).url) →
      (entries.foldl (stepEntry false accId accName) (db, st)).1 = db ∧
      ((entries.foldl (stepEntry false accId accName) (db, st)).2).new = st.new := by
  intro entries
  induction entries with
  | nil => intro db st _; exact ⟨rfl, rfl⟩
  | cons e es ih =>
    intro db st hpresent
    rw [List.foldl_cons]
    cases hm : e.mainRaises
    · have hp : hasUrl db (applyAuthorFallback accName e.payload).url :=
        hpresent e (List.mem_cons_self e es) hm
      have hfound : ∃ row, getArticleByUrl db (applyAuthorFallback accName e.payload).url =
          some row := by
        unfold hasUrl urlsOf at hp
        obtain ⟨r, hr, hurl⟩ := List.mem_map.mp hp
        have hsome : (db.rows.find? (fun r =>
            r.payload.url == (applyAuthorFallback accName e.payload).url)).isSome :=
          List.find?_isSome.mpr ⟨r, hr, by simp [hurl]⟩
        exact Option.isSome_iff_exists.mp hsome
      obtain ⟨row, hfind⟩ := hfound
      rw [stepEntry_skip accId accName db st e row hm hfind]
      exact ih db _ (fun e' he' => hpresent e' (List.mem_cons_of_mem e he'))
    · rw [stepEntry_raise false accId accName db st e hm]
      exact ih db _ (fun e' he' => hpresent e' (List.mem_cons_of_mem e he'))

/-- C3: URL is the sole deduplication key of `sync_account`.  (i) In
incremental mode an entry whose resolved URL is already present is counted as
skipped and the table is unchanged — regardless of its title or any other
payload field.  (ii) In full-sync mode such an entry overwrites the existing
row in place (the id and URL columns are unchanged), counts as updated, not
new.  (iii) A row is created only when the URL is absent.  (iv) Re-syncing a
feed whose (non-raising) entries' URLs are all present, in incremental mode,
yields `new = 0` and leaves the table identical.  (v) URL uniqueness is
preserved by every sync run. -/
theorem sync_dedup_by_url (accId : Nat) (accName : String) :
    (∀ (db : DBState) (st : SyncStats) (e : SyncEntry) (row : Row),
      e.mainRaises = false →
      getArticleByUrl db (applyAuthorFallback accName e.payload).url = some row →
      stepEntry false accId accName (db, st) e =
        (db, { st with skipped := st.skipped + 1 })) ∧
    (∀ (db : DBState) (st : SyncStats) (e : SyncEntry) (row : Row), WFdb db →
      e.mainRaises = false →
      getArticleByUrl db (applyAuthorFallback accName e.payload).url = some row →
      urlsOf (stepEntry true accId accName (db, st) e).1 = urlsOf db ∧
      (stepEntry true accId accName (db, st) e).1.rows.map (fun r => r.id) =
        db.rows.map (fun r => r.id) ∧
      (stepEntry true accId accName (db, st) e).2.updated = st.updated + 1 ∧
      (stepEntry true accId accName (db, st) e).2.new = st.new) ∧
    (∀ (f : Bool) (db : DBState) (st : SyncStats) (e : SyncEntry),
      e.mainRaises = false →
      getArticleByUrl db (applyAuthorFallback accName e.payload).url = none →
      urlsOf (stepEntry f accId accName (db, st) e).1 =
        urlsOf db ++ [(applyAuthorFallback accName e.payload).url] ∧
      (stepEntry f accId accName (db, st) e).2.new = st.new + 1) ∧
    (∀ (entries : List SyncEntry) (db : DBState),
      (∀ e ∈ entries, e.mainRaises = false →
        hasUrl db (applyAuthorFallback accName e.payload).url) →
      (syncEntries false accId accName db entries).1 = db ∧
      (syncEntries false accId accName db entries).2.new = 0) ∧
    (∀ (f : Bool) (entries : List SyncEntry) (db : DBState), WFdb db →
      (urlsOf db).Nodup →
      (urlsOf (syncEntries f accId accName db entries).1).Nodup) := by
  refine ⟨?_, ?_, ?_, ?_, ?_⟩
  · intro db st e row hm hfind
    exact stepEntry_skip accId accName db st e row hm hfind
  · intro db st e row hwf hm hfind
    rw [stepEntry_update accId accName db st e row hm hfind]
    refine ⟨?_, ?_, ?_, ?_⟩
    · rw [urlsOf_runSubstep, urlsOf_updateArticle_found db _ row hwf.1 hfind]
    · rw [ids_runSubstep, ids_updateArticle]
    · rw [runSubstep_stats]
    · rw [runSubstep_stats]
  · intro f db st e hm hfind
    rw [stepEntry_insert f accId accName db st e hm hfind]
    refine ⟨?_, ?_⟩
    · rw [urlsOf_runSubstep, urlsOf_createArticle]
    · rw [runSubstep_stats]
  · intro entries db hpresent
    exact foldl_second_run accId accName entries db _ hpresent
  · intro f entries db hwf hnd
    exact foldl_urlsOf_nodup f accId accName entries db _ hwf hnd

/-- Witness for C3 at a concrete table and entry: an already-present URL in
incremental mode is skipped without touching the table. -/
theorem sync_dedup_by_url_witness :
    stepEntry false 1 "Acc" (dbWithU1, zeroStats) entryU1 =
      (dbWithU1, { zeroStats with skipped := 1 }) :=
  (sync_dedup_by_url 1 "Acc").1 dbWithU1 zeroStats entryU1 rowU1 (by decide) (by decide)

/-- C4: per-entry failure isolation in `sync_account`.  Over any batch, the
final `failed` count equals exactly the number of entries whose main
processing phase raised; every non-raising entry is still recorded (the
new/updated/skipped counts sum to the number of non-raising entries), and
each non-raising entry's resolved URL is present in the final table — a
raising entry never prevents later entries from being processed. -/
theorem sync_failure_isolation (f : Bool) (accId : Nat) (accName : String)
    (db : DBState) (entries : List SyncEntry) (hwf : WFdb db) :
    (syncEntries f accId accName db entries).2.failed =
      (entries.filter (fun e => e.mainRaises)).length ∧
    (syncEntries f accId accName db entries).2.new +
      (syncEntries f accId accName db entries).2.updated +
      (syncEntries f accId accName db entries).2.skipped =
      (entries.filter (fun e => !e.mainRaises)).length ∧
    (∀ e ∈ entries, e.mainRaises = false →
      hasUrl (syncEntries f accId accName db entries).1
        (applyAuthorFallback accName e.payload).url) := by
  refine ⟨?_, ?_, ?_⟩
  · rw [syncEntries, foldl_failed_count]
    simp
  · rw [syncEntries, foldl_recorded_count]
    simp
  · intro e he hm
    exact foldl_processed_present f accId accName entries db _ hwf e he hm

/-- Witness for C4: one raising entry among two does not stop the second from
being inserted. -/
theorem sync_failure_isolation_witness :
    (syncEntries false 1 "Acc" emptyDB [raiseEntry, entryU1]).2.failed = 1 ∧
    (syncEntries false 1 "Acc" emptyDB [raiseEntry, entryU1]).2.new +
      (syncEntries false 1 "Acc" emptyDB [raiseEntry, entryU1]).2.updated +
      (syncEntries false 1 "Acc" emptyDB [raiseEntry, entryU1]).2.skipped = 1 :=
  ⟨((sync_failure_isolation false 1 "Acc" emptyDB [raiseEntry, entryU1]
      (by decide)).1).trans (by decide),
    ((sync_failure_isolation false 1 "Acc" emptyDB [raiseEntry, entryU1]
      (by decide)).2.1).trans (by decide)⟩

/-- C5 counterexample: a failing metrics/score/persist sub-step does *not*
increment the `failed` counter — the inner `except` only logs.  One fresh
entry whose sub-step raises ends the run with `new = 1`, `substepRuns = 1`
and `failed = 0`, where the claim requires `failed` to have been
incremented. -/
theorem substep_failure_not_counted :
    (syncEntries false 1 "Acc" emptyDB [substepFailEntry]).2.failed = 0 ∧
    (syncEntries false 1 "Acc" emptyDB [substepFailEntry]).2.new = 1 ∧
    (syncEntries false 1 "Acc" emptyDB [substepFailEntry]).2.substepRuns = 1 := by
  decide

/-- C5 (amended): a failure of the metrics/score/persist sub-step leaves the
`failed` counter unchanged (it is only logged), does not abort the run, and
leaves the entry's contribution to `new`/`updated` intact (the conclusions
below hold whatever `e.substepRaises` is); the sub-step is never executed for
skipped entries (the skip branch leaves `substepRuns` untouched). -/
theorem substep_failure_isolated (f : Bool) (accId : Nat) (accName : String)
    (db : DBState) (st : SyncStats) (e : SyncEntry) (hm : e.mainRaises = false) :
    (stepEntry f accId accName (db, st) e).2.failed = st.failed ∧
    (∀ row, getArticleByUrl db (applyAuthorFallback accName e.payload).url = some row →
      stepEntry false accId accName (db, st) e =
        (db, { st with skipped := st.skipped + 1 })) ∧
    (∀ row, getArticleByUrl db (applyAuthorFallback accName e.payload).url = some row →
      (stepEntry true accId accName (db, st) e).2.updated = st.updated + 1 ∧
      (stepEntry true accId accName (db, st) e).2.new = st.new ∧
      (stepEntry true accId accName (db, st) e).2.substepRuns = st.substepRuns + 1) ∧
    (getArticleByUrl db (applyAuthorFallback accName e.payload).url = none →
      (stepEntry f accId accName (db, st) e).2.new = st.new + 1 ∧
      (stepEntry f accId accName (db, st) e).2.updated = st.updated ∧
      (stepEntry f accId accName (db, st) e).2.substepRuns = st.substepRuns + 1) := by
  refine ⟨?_, ?_, ?_, ?_⟩
  · rw [stepEntry_failed_count]
    simp [hm]
  · intro row hfind
    exact stepEntry_skip accId accName db st e row hm hfind
  · intro row hfind
    rw [stepEntry_update accId accName db st e row hm hfind, runSubstep_stats]
    exact ⟨rfl, rfl, rfl⟩
  · intro hfind
    rw [stepEntry_insert f accId accName db st e hm hfind, runSubstep_stats]
    exact ⟨rfl, rfl, rfl⟩

/-- C7: when the fetched page contains neither the `js_content` container nor
the `rich_media_content` class pattern, `fetch_article_content` returns a
non-`None` dictionary with empty `content_text`/`content_html` and empty
image/video lists rather than raising or returning `None`. -/
theorem no_container_empty_result (url : String) (dom : Dom)
    (hne : url ≠ "") (hhttp : pyStartswith url "http" = true)
    (h1 : dom.jsContentDiv = none) (h2 : dom.richMediaDiv = none) :
    fetchArticleContent url (.ok dom) =
      some { content_text := "", content_html := "", images := [], videos := [] } := by
  simp [fetchArticleContent, parseWechatHtml, hne, hhttp, h1, h2, Option.orElse]

/-- Witness for C7 at a concrete URL and containerless page. -/
theorem no_container_empty_result_witness :
    fetchArticleContent "http://x" (.ok containerlessDom) =
      some { content_text := "", content_html := "", images := [], videos := [] } :=
  no_container_empty_result "http://x" containerlessDom (by decide) (by decide) rfl rfl

/-- C8 counterexample: an entry whose author is whitespace-only (here a single
space) is *not* replaced by the account's display name — Python's truthiness
check `not article_data.get("author")` is false for `" "` and `" "` does not
equal `"unknown"` case-insensitively, so the space is stored verbatim. -/
theorem whitespace_author_stored_verbatim :
    storedAuthor "Tech Daily"
        { author := .str " ", authors := [], author_name := none } = " " ∧
    (" " : String) ≠ "Tech Daily" := by
  decide

/-- C8 (amended): the resolution order holds — a nonempty multi-author list
joins names with `", "`; else an author dictionary resolves to its name; an
empty-resolved author falls back to the `author_name` field and then (in
`sync_account`) to the account display name, which also replaces a resolved
author equal to `"unknown"` case-insensitively; consequently the stored
author is never case-insensitively `"Unknown"` when the account name is not.
A whitespace-only (non-empty) author, however, is stored verbatim. -/
theorem author_resolution_chain (accName : String) (e : FeedEntry) :
    (e.authors ≠ [] → authorNamesOf e.authors ≠ [] →
      String.intercalate ", " (authorNamesOf e.authors) ≠ "" →
      pyLower (String.intercalate ", " (authorNamesOf e.authors)) ≠ "unknown" →
      storedAuthor accName e = String.intercalate ", " (authorNamesOf e.authors)) ∧
    (∀ n, e.authors = [] → e.author = .dict (some n) → n ≠ "" →
      pyLower n ≠ "unknown" → storedAuthor accName e = n) ∧
    (e.author = .str "" → e.authors = [] → e.author_name = none →
      storedAuthor accName e = accName) ∧
    (∀ s, e.author = .str "" → e.authors = [] → e.author_name = some s → s ≠ "" →
      pyLower s ≠ "unknown" → storedAuthor accName e = s) ∧
    (pyLower accName ≠ "unknown" → pyLower (storedAuthor accName e) ≠ "unknown") := by
  refine ⟨?_, ?_, ?_, ?_, ?_⟩
  · intro ha hn hj1 hj2
    simp [storedAuthor, resolveAuthor, ha, hn, hj1, hj2]
  · intro n ha hd hn1 hn2
    simp [storedAuthor, resolveAuthor, ha, hd, hn1, hn2]
  · intro ha hau han
    simp [storedAuthor, resolveAuthor, ha, hau, han, pyLower]
  · intro s ha hau han hs1 hs2
    simp [storedAuthor, resolveAuthor, ha, hau, han, hs1, hs2]
  · intro h
    unfold storedAuthor
    by_cases hc : resolveAuthor e = "" ∨ pyLower (resolveAuthor e) = "unknown"
    · rw [if_pos hc]
      exact h
    · push_neg at hc
      rw [if_neg (by simp [hc.1, hc.2])]
      exact hc.2

/-- Witness for C8's amended theorem: the empty-author and unknown-free
conjuncts at a concrete entry. -/
theorem author_resolution_chain_witness :
    storedAuthor "Tech Daily"
        { author := .str "", authors := [], author_name := none } = "Tech Daily" :=
  (author_resolution_chain "Tech Daily"
    { author := .str "", authors := [], author_name := none }).2.2.1 rfl rfl rfl

/-- Appending to the end of a nonempty token does not change its head. -/
theorem headNotCJK_append (l : List Char) (c : Char) (h : l ≠ []) :
    headNotCJK (l ++ [c]) = headNotCJK l := by
  cases l with
  | nil => exact absurd rfl h
  | cons d t => rfl

/-- Counting the word tokens that pass the non-CJK-head filter equals the
compositional start count, with the accumulator's token (if any) accounted
for by its own head. -/
theorem runsByAux_filter_count :
    ∀ (s cur : List Char),
      ((runsByAux isWordChar cur s).filter headNotCJK).length =
        (if cur.isEmpty then countWordStarts false s
         else (if headNotCJK cur.reverse then 1 else 0) + countWordStarts true s) := by
  intro s
  induction s with
  | nil =>
    intro cur
    cases cur with
    | nil => simp [runsByAux, countWordStarts]
    | cons d t =>
      simp only [runsByAux, List.isEmpty_cons, Bool.false_eq_true, if_false,
        countWordStarts]
      by_cases hh : headNotCJK (t.reverse ++ [d]) = true
      · simp [List.filter, hh]
      · have hh' : headNotCJK (t.reverse ++ [d]) = false := by simpa using hh
        simp [List.filter, hh']
  | cons c rest ih =>
    intro cur
    by_cases hw : isWordChar c = true
    · have hstep : runsByAux isWordChar cur (c :: rest) =
          runsByAux isWordChar (c :: cur) rest := by
        simp [runsByAux, hw]
      rw [hstep, ih (c :: cur)]
      cases cur with
      | nil =>
        simp [countWordStarts, hw, headNotCJK]
      | cons d t =>
        have hne : (d :: t).reverse ≠ [] := by simp
        rw [show (c :: d :: t).reverse = (d :: t).reverse ++ [c] by simp,
          headNotCJK_append _ c hne]
        simp [countWordStarts, hw]
    · have hw' : isWordChar c = false := by simpa using hw
      cases cur with
      | nil =>
        have hstep : runsByAux isWordChar [] (c :: rest) =
            runsByAux isWordChar [] rest := by
          simp [runsByAux, hw']
        rw [hstep, ih []]
        simp [countWordStarts, hw']
      | cons d t =>
        have hstep : runsByAux isWordChar (d :: t) (c :: rest) =
            (d :: t).reverse :: runsByAux isWordChar [] rest := by
          simp [runsByAux, hw']
        rw [hstep]
        by_cases hh : headNotCJK (d :: t).reverse = true
        · simp only [List.filter, hh, List.length_cons, List.isEmpty_cons,
            Bool.false_eq_true, if_false]
          rw [ih []]
          simp [countWordStarts, hw', hh]
          omega
        · have hh' : headNotCJK (d :: t).reverse = false := by simpa using hh
          simp only [List.filter, hh', List.isEmpty_cons, Bool.false_eq_true, if_false]
          rw [ih []]
          simp [countWordStarts, hw', hh']

/-- C9 counterexample: on `"a,b"` the code counts two word tokens (`a` and
`b`, split by the comma inside one whitespace-delimited token), while the
claimed count over whitespace-delimited alphanumeric tokens yields 0 (the
sole whitespace token `"a,b"` is not alphanumeric; even without the
alphanumeric requirement it would yield 1, never 2). -/
theorem count_words_regex_counterexample :
    count_words "a,b" = 2 ∧ claimWordCount "a,b" = 0 ∧
      count_words "a,b" ≠ claimWordCount "a,b" := by
  decide

/-- C9 (amended): `_count_words` returns 0 for the empty string and otherwise
the number of CJK ideographs plus the number of maximal word-character runs
(regex `\b\w+\b` tokens — letters, digits, underscore, CJK) whose first
character is not a CJK ideograph, here characterized compositionally by a
left-to-right scan. -/
theorem count_words_characterization :
    count_words "" = 0 ∧
    ∀ text : String,
      count_words text =
        (text.data.filter isCJKChar).length + countWordStarts false text.data := by
  refine ⟨rfl, ?_⟩
  intro text
  by_cases h : text = ""
  · subst h
    simp [count_words, countWordStarts]
  · simp only [count_words, h, if_neg, runsBy]
    rw [runsByAux_filter_count text.data []]
    simp

/-- Witness for C5's amended theorem: a fresh entry with a raising sub-step
still counts as new, runs the sub-step once, and leaves `failed` at zero. -/
theorem substep_failure_isolated_witness :
    (stepEntry false 1 "Acc" (emptyDB, zeroStats) substepFailEntry).2.failed = 0 ∧
    (stepEntry false 1 "Acc" (emptyDB, zeroStats) substepFailEntry).2.new = 1 ∧
    (stepEntry false 1 "Acc" (emptyDB, zeroStats) substepFailEntry).2.substepRuns = 1 :=
  ⟨(substep_failure_isolated false 1 "Acc" emptyDB zeroStats substepFailEntry
      (by decide)).1,
    ((substep_failure_isolated false 1 "Acc" emptyDB zeroStats substepFailEntry
      (by decide)).2.2.2 rfl).1,
    ((substep_failure_isolated false 1 "Acc" emptyDB zeroStats substepFailEntry
      (by decide)).2.2.2 rfl).2.2⟩

end WexinCrawler
